import Mathlib

/-!
Shallow embedding of the calendar-assistant tool layer (`main.py`).
Python dynamic JSON-like values are modelled by the inductive type `J`;
fallible Python operations (subscript, attribute access, iteration) return
`Except PyErr`; the HTTP backends are passed in explicitly as oracles, and
each adapter additionally returns the list of request bodies it issued, so
that "contacts the backend" is a provable property.
-/

namespace CalendarBuddy

/-- A Python float, represented exactly as the decimal `m * 10 ^ (-e)` —
every float literal and every float computation appearing in this program
is such a decimal. Values are kept in canonical form (no trailing zero
digits in `m` when `e > 0`). -/
structure PyFloat where
  m : Int
  e : Nat
deriving Repr, DecidableEq

/-- Dynamic JSON-like values: None, bool, int, float (as exact decimals),
str, list, dict (association list in insertion order, keys assumed unique,
matching Python dict semantics). -/
inductive J where
  | null : J
  | jb (v : Bool) : J
  | ji (v : Int) : J
  | jq (v : PyFloat) : J
  | js (v : String) : J
  | jarr (vs : List J) : J
  | jobj (kvs : List (String × J)) : J
deriving Repr

/-- Python errors that the modelled code can raise. -/
inductive PyErr where
  | keyError (k : String) : PyErr
  | typeError (m : String) : PyErr
  | indexError (m : String) : PyErr
  | attributeError (m : String) : PyErr
deriving Repr, DecidableEq

/-- First-match association-list lookup: models Python dict indexing/get
on a dict with (as in all payloads here) unique keys. -/
def lookupKvs : List (String × J) → String → Option J
  | [], _ => none
  | (k, v) :: rest, key => if k = key then some v else lookupKvs rest key

/-- Python truthiness for the modelled values. -/
def truthy : J → Bool
  | .null => false
  | .jb v => v
  | .ji v => v != 0
  | .jq v => v.m != 0
  | .js v => v != ""
  | .jarr vs => !vs.isEmpty
  | .jobj kvs => !kvs.isEmpty

/-- Python subscript `x[key]` with a string key: KeyError when the key is
absent from a dict, TypeError when `x` is not a dict. -/
def pySubscript (x : J) (key : String) : Except PyErr J :=
  match x with
  | .jobj kvs =>
    match lookupKvs kvs key with
    | some v => Except.ok v
    | none => Except.error (PyErr.keyError key)
  | _ => Except.error (PyErr.typeError ("value is not subscriptable by str"))

/-- Python `x.get(key, default)`: AttributeError when `x` is not a dict. -/
def pyGet (x : J) (key : String) (dflt : J) : Except PyErr J :=
  match x with
  | .jobj kvs => Except.ok ((lookupKvs kvs key).getD dflt)
  | _ => Except.error (PyErr.attributeError ("value has no attribute get"))

/-- Python iteration: a list yields its elements, a dict its keys, a str its
characters (as one-character strings); other values are not iterable. -/
def pyIterate (x : J) : Except PyErr (List J) :=
  match x with
  | .jarr vs => Except.ok vs
  | .jobj kvs => Except.ok (kvs.map (fun p => J.js p.fst))
  | .js s => Except.ok (s.data.map (fun c => J.js (String.singleton c)))
  | _ => Except.error (PyErr.typeError ("value is not iterable"))

/-- Python `str.startswith`, stated over character lists so that prefix
facts are easy to reason about. -/
def pyStartswith (s pre : String) : Bool :=
  pre.data.isPrefixOf s.data

/-- Coerce a value to an exact decimal `num * 10 ^ (-e)` the way Python
numeric contexts do (bools are ints); TypeError otherwise. -/
def asNum (x : J) : Except PyErr (Int × Nat) :=
  match x with
  | .ji v => Except.ok (v, 0)
  | .jq v => Except.ok (v.m, v.e)
  | .jb v => Except.ok (if v then (1, 0) else (0, 0))
  | _ => Except.error (PyErr.typeError ("a number is required"))

/-- Floor of the decimal `num * 10 ^ (-e)` as an integer. -/
def decFloor (num : Int) (e : Nat) : Int :=
  Int.fdiv num ((10 : Int) ^ e)

/-- Hexadecimal digit. -/
def hexDigit (n : Nat) : Char :=
  if n < 10 then Char.ofNat (48 + n) else Char.ofNat (87 + n)

/-- Four-digit hexadecimal rendering, for \uXXXX escapes. -/
def hex4 (n : Nat) : String :=
  String.mk [hexDigit (n / 4096 % 16), hexDigit (n / 256 % 16),
             hexDigit (n / 16 % 16), hexDigit (n % 16)]

/-- Insert a decimal point `k` digits from the right of the digit string of
`n` (zero-padding as needed); helper for float rendering. -/
def insertDec (n : Nat) (k : Nat) : String :=
  let s := toString n
  let s := if s.length ≤ k then String.mk (List.replicate (k + 1 - s.length) ('0')) ++ s else s
  let cut := s.length - k
  String.mk (s.data.take cut) ++ "." ++ String.mk (s.data.drop cut)

/-- Python float `repr` of a canonical decimal: an integral value renders
with a trailing ".0", others with the decimal point inserted. -/
def floatRepr (f : PyFloat) : String :=
  let sgn := if f.m < 0 then "-" else ""
  let a := f.m.natAbs
  if f.e = 0 then sgn ++ toString a ++ ".0"
  else sgn ++ insertDec a f.e

mutual

/-- Python `repr` for the modelled values (string quoting is simplified:
no escaping inside repr-quoted strings, which never matters here). -/
def pyRepr : J → String
  | .null => "None"
  | .jb v => if v then "True" else "False"
  | .ji v => toString v
  | .jq v => floatRepr v
  | .js v => "\x27" ++ v ++ "\x27"
  | .jarr vs => "[" ++ pyReprList vs ++ "]"
  | .jobj kvs => "\x7b" ++ pyReprObj kvs ++ "\x7d"

/-- Comma-joined reprs of list elements. -/
def pyReprList : List J → String
  | [] => ""
  | [v] => pyRepr v
  | v :: rest => pyRepr v ++ ", " ++ pyReprList rest

/-- Comma-joined reprs of dict items. -/
def pyReprObj : List (String × J) → String
  | [] => ""
  | [(k, v)] => "\x27" ++ k ++ "\x27: " ++ pyRepr v
  | (k, v) :: rest => "\x27" ++ k ++ "\x27: " ++ pyRepr v ++ ", " ++ pyReprObj rest

end

/-- Python `str()`: identity on strings, `repr`-like elsewhere. -/
def pyStr : J → String
  | .js v => v
  | v => pyRepr v

/-- Message text of a Python exception, as `str(e)` renders it
(`str(KeyError(k))` is the repr of the key). -/
def pyErrStr : PyErr → String
  | .keyError k => "\x27" ++ k ++ "\x27"
  | .typeError m => m
  | .indexError m => m
  | .attributeError m => m

/-- JSON escaping of one character, `ensure_ascii` style as in
`json.dumps` defaults. -/
def jsonEscapeChar (c : Char) : String :=
  if c = '"' then "\\\""
  else if c = '\\' then "\\\\"
  else if c = '\n' then "\\n"
  else if c = '\t' then "\\t"
  else if c = '\r' then "\\r"
  else if c.toNat < 32 then "\\u" ++ hex4 c.toNat
  else if c.toNat < 127 then String.singleton c
  else if c.toNat < 65536 then "\\u" ++ hex4 c.toNat
  else
    let v := c.toNat - 65536
    "\\u" ++ hex4 (55296 + v / 1024) ++ "\\u" ++ hex4 (56320 + v % 1024)

/-- JSON string literal, escaped and quoted. -/
def jsonQuote (s : String) : String :=
  "\"" ++ String.join (s.data.map jsonEscapeChar) ++ "\""

/-- Indentation of `2 * n` spaces, as `json.dumps(..., indent=2)` emits. -/
def jIndent (n : Nat) : String :=
  String.mk (List.replicate (2 * n) (' '))

mutual

/-- Embedding of `json.dumps(x, indent=2)` at nesting level `lvl`. -/
def dumpsVal : J → Nat → String
  | .null, _ => "null"
  | .jb v, _ => if v then "true" else "false"
  | .ji v, _ => toString v
  | .jq v, _ => floatRepr v
  | .js v, _ => jsonQuote v
  | .jarr [], _ => "[]"
  | .jarr (v :: vs), lvl =>
    "[\n" ++ jIndent (lvl + 1) ++ dumpsVal v (lvl + 1) ++ dumpsArr vs (lvl + 1)
      ++ "\n" ++ jIndent lvl ++ "]"
  | .jobj [], _ => "\x7b\x7d"
  | .jobj (kv :: kvs), lvl =>
    "\x7b\n" ++ jIndent (lvl + 1) ++ jsonQuote kv.fst ++ ": "
      ++ dumpsVal kv.snd (lvl + 1) ++ dumpsObj kvs (lvl + 1)
      ++ "\n" ++ jIndent lvl ++ "\x7d"

/-- Remaining array items, each on its own indented line. -/
def dumpsArr : List J → Nat → String
  | [], _ => ""
  | v :: vs, lvl => ",\n" ++ jIndent lvl ++ dumpsVal v lvl ++ dumpsArr vs lvl

/-- Remaining object items, each on its own indented line. -/
def dumpsObj : List (String × J) → Nat → String
  | [], _ => ""
  | kv :: kvs, lvl =>
    ",\n" ++ jIndent lvl ++ jsonQuote kv.fst ++ ": " ++ dumpsVal kv.snd lvl
      ++ dumpsObj kvs lvl

end

/-- Embedding of `json.dumps(data, indent=2)`. -/
def dumps (x : J) : String := dumpsVal x 0

/-- Whitespace skipping for the JSON reader. -/
def jSkipWs : List Char → List Char :=
  List.dropWhile (fun c => c = ' ' || c = '\n' || c = '\t' || c = '\r')

/-- Decimal digits consumed from the front of the input. -/
def takeDigits (cs : List Char) : List Char × List Char :=
  (cs.takeWhile Char.isDigit, cs.dropWhile Char.isDigit)

/-- Numeric value of a digit list. -/
def digitsToNat : List Char → Nat
  | cs => cs.foldl (fun acc c => 10 * acc + (c.toNat - 48)) 0

/-- Number grammar of JSON: optional minus, integer part, optional fraction,
optional exponent. An integer literal yields `J.ji`, anything with a
fraction or exponent yields a float (`J.jq`), as `json.loads` does. -/
def parseNumber (cs : List Char) : Option (J × List Char) :=
  let (neg, cs1) := match cs with
    | '-' :: rest => (true, rest)
    | _ => (false, cs)
  let (ds, cs2) := takeDigits cs1
  if ds.isEmpty then none
  else
    let ip := digitsToNat ds
    let (fds, cs3) := match cs2 with
      | '.' :: rest => takeDigits rest
      | _ => ([], cs2)
    let hasFrac := !fds.isEmpty
    let afterFracOk := match cs2 with
      | '.' :: _ => hasFrac
      | _ => true
    if !afterFracOk then none
    else
      let (expPart, cs4) : Option Int × List Char := match cs3 with
        | 'e' :: rest | 'E' :: rest =>
          let (esgn, rest1) := match rest with
            | '+' :: r => ((1 : Int), r)
            | '-' :: r => ((-1 : Int), r)
            | _ => ((1 : Int), rest)
          let (eds, rest2) := takeDigits rest1
          if eds.isEmpty then (none, cs3)
          else (some (esgn * (digitsToNat eds : Int)), rest2)
        | _ => (none, cs3)
      let mant : Nat := ip * 10 ^ fds.length + digitsToNat fds
      let signedM : Int := if neg then -(mant : Int) else (mant : Int)
      match expPart with
      | none =>
        if hasFrac then some (J.jq ⟨signedM, fds.length⟩, cs4)
        else some (J.ji (if neg then -(ip : Int) else (ip : Int)), cs4)
      | some ex =>
        let shift : Int := ex - (fds.length : Int)
        if shift ≥ 0 then
          some (J.jq ⟨signedM * (10 : Int) ^ shift.toNat, 0⟩, cs4)
        else
          some (J.jq ⟨signedM, (-shift).toNat⟩, cs4)

/-- One escaped or plain character inside a JSON string literal. -/
def parseStrChars (fuel : Nat) (cs : List Char) (acc : List Char) :
    Option (String × List Char) :=
  match fuel with
  | 0 => none
  | fuel + 1 =>
    match cs with
    | [] => none
    | '"' :: rest => some (String.mk acc.reverse, rest)
    | '\\' :: esc :: rest =>
      if esc = '"' then parseStrChars fuel rest ('"' :: acc)
      else if esc = '\\' then parseStrChars fuel rest ('\\' :: acc)
      else if esc = '/' then parseStrChars fuel rest ('/' :: acc)
      else if esc = 'n' then parseStrChars fuel rest ('\n' :: acc)
      else if esc = 't' then parseStrChars fuel rest ('\t' :: acc)
      else if esc = 'r' then parseStrChars fuel rest ('\r' :: acc)
      else if esc = 'b' then parseStrChars fuel rest ((Char.ofNat 8) :: acc)
      else if esc = 'f' then parseStrChars fuel rest ((Char.ofNat 12) :: acc)
      else if esc = 'u' then
        match rest with
        | a :: b :: c :: d :: rest2 =>
          let hv := fun (ch : Char) =>
            if ch.isDigit then ch.toNat - 48
            else if 'a' ≤ ch ∧ ch ≤ 'f' then ch.toNat - 87
            else if 'A' ≤ ch ∧ ch ≤ 'F' then ch.toNat - 55
            else 99
          let vals := [hv a, hv b, hv c, hv d]
          if vals.all (fun v => v < 16) then
            let code := vals.foldl (fun x y => 16 * x + y) 0
            parseStrChars fuel rest2 ((Char.ofNat code) :: acc)
          else none
        | _ => none
      else none
    | c :: rest => parseStrChars fuel rest (c :: acc)

mutual

/-- Recursive-descent JSON value reader (fuel-bounded), embedding
`json.loads`. -/
def parseVal : Nat → List Char → Option (J × List Char)
  | 0, _ => none
  | _ + 1, [] => none
  | fuel + 1, cs =>
    let cs := jSkipWs cs
    match cs with
    | [] => none
    | 'n' :: 'u' :: 'l' :: 'l' :: rest => some (J.null, rest)
    | 't' :: 'r' :: 'u' :: 'e' :: rest => some (J.jb true, rest)
    | 'f' :: 'a' :: 'l' :: 's' :: 'e' :: rest => some (J.jb false, rest)
    | '"' :: rest =>
      match parseStrChars (rest.length + 1) rest [] with
      | some (s, rest2) => some (J.js s, rest2)
      | none => none
    | '[' :: rest =>
      match jSkipWs rest with
      | ']' :: rest2 => some (J.jarr [], rest2)
      | rest2 =>
        match parseArrItems fuel rest2 with
        | some (vs, rest3) => some (J.jarr vs, rest3)
        | none => none
    | '\x7b' :: rest =>
      match jSkipWs rest with
      | '\x7d' :: rest2 => some (J.jobj [], rest2)
      | rest2 =>
        match parseObjItems fuel rest2 with
        | some (kvs, rest3) => some (J.jobj kvs, rest3)
        | none => none
    | _ => parseNumber cs

/-- Comma-separated array items followed by the closing bracket. -/
def parseArrItems : Nat → List Char → Option (List J × List Char)
  | 0, _ => none
  | fuel + 1, cs =>
    match parseVal fuel cs with
    | none => none
    | some (v, rest) =>
      match jSkipWs rest with
      | ',' :: rest2 =>
        match parseArrItems fuel rest2 with
        | some (vs, rest3) => some (v :: vs, rest3)
        | none => none
      | ']' :: rest2 => some ([v], rest2)
      | _ => none

/-- Comma-separated object items followed by the closing brace. -/
def parseObjItems : Nat → List Char → Option (List (String × J) × List Char)
  | 0, _ => none
  | fuel + 1, cs =>
    match jSkipWs cs with
    | '"' :: rest =>
      match parseStrChars (rest.length + 1) rest [] with
      | none => none
      | some (k, rest1) =>
        match jSkipWs rest1 with
        | ':' :: rest2 =>
          match parseVal fuel rest2 with
          | none => none
          | some (v, rest3) =>
            match jSkipWs rest3 with
            | ',' :: rest4 =>
              match parseObjItems fuel rest4 with
              | some (kvs, rest5) => some ((k, v) :: kvs, rest5)
              | none => none
            | '\x7d' :: rest4 => some ([(k, v)], rest4)
            | _ => none
        | _ => none
    | _ => none

end

/-- Embedding of `json.loads`: `none` models a raised `JSONDecodeError`. -/
def jsonParse (s : String) : Option J :=
  match parseVal (2 * s.length + 8) s.data with
  | some (v, rest) => if (jSkipWs rest).isEmpty then some v else none
  | none => none

/-- Two-digit zero-padded rendering, as `strftime` field output. -/
def pad2 (n : Nat) : String :=
  if n < 10 then "0" ++ toString n else toString n

/-- Civil date (year, month, day) from a day count since the Unix epoch
(standard era-based conversion, proleptic Gregorian). -/
def civilFromDays (z0 : Int) : Int × Nat × Nat :=
  let z := z0 + 719468
  let era : Int := Int.fdiv z 146097
  let doe : Nat := (z - era * 146097).toNat
  let yoe : Nat := (doe - doe / 1460 + doe / 36524 - doe / 146096) / 365
  let y : Int := (yoe : Int) + era * 400
  let doy : Nat := doe - (365 * yoe + yoe / 4 - yoe / 100)
  let mp : Nat := (5 * doy + 2) / 153
  let d : Nat := doy - (153 * mp + 2) / 5 + 1
  let m : Nat := if mp < 10 then mp + 3 else mp - 9
  (if m ≤ 2 then y + 1 else y, m, d)

/-- Embedding of
`datetime.datetime.fromtimestamp(x).strftime("%Y-%m-%d %H:%M")` for a
timestamp given as the decimal `num * 10 ^ (-e)`; the host timezone is
fixed to UTC in this model (the rendering is a pure function of the
timestamp either way). The minute field depends only on the floor of the
timestamp. -/
def fmtTimestamp (num : Int) (e : Nat) : String :=
  let t : Int := decFloor num e
  let days : Int := Int.fdiv t 86400
  let secs : Nat := (t - days * 86400).toNat
  let ymd := civilFromDays days
  let hh : Nat := secs / 3600
  let mm : Nat := secs % 3600 / 60
  toString ymd.1 ++ "-" ++ pad2 ymd.2.1 ++ "-" ++ pad2 ymd.2.2 ++ " "
    ++ pad2 hh ++ ":" ++ pad2 mm

/-- Round the exact fraction `num / den` (with `den > 0`) half to even, the
rounding of Python float formatting. -/
def roundHalfEven (num : Int) (den : Int) : Int :=
  let f : Int := Int.fdiv num den
  let r : Int := Int.emod num den
  if 2 * r < den then f
  else if den < 2 * r then f + 1
  else if f % 2 = 0 then f else f + 1

/-- Embedding of the Python format `f"..:.1f"` applied to the exact
fraction `num / den` (with `den > 0`). -/
def formatFixed1 (num : Int) (den : Int) : String :=
  let t : Int := roundHalfEven (num * 10) den
  let sgn := if t < 0 then "-" else ""
  let a : Nat := t.natAbs
  sgn ++ toString (a / 10) ++ "." ++ toString (a % 10)

/-- One line of the locations formatter of `humanize_response`:
`f"üìç {loc['name']} (Lat: {loc['latitude']}, Lon: {loc['longitude']})"`. -/
def locLine (loc : J) : Except PyErr String :=
  match pySubscript loc ("name") with
  | .error er => .error er
  | .ok nm =>
  match pySubscript loc ("latitude") with
  | .error er => .error er
  | .ok lat =>
  match pySubscript loc ("longitude") with
  | .error er => .error er
  | .ok lon =>
    .ok ("üìç " ++ pyStr nm ++ " (Lat: " ++ pyStr lat ++ ", Lon: "
      ++ pyStr lon ++ ")")

/-- Comprehension over the items: first raised error escapes, as in the
Python list comprehensions of `humanize_response`. -/
def mapLinesWith (f : J → Except PyErr String) : List J → Except PyErr (List String)
  | [] => .ok []
  | x :: rest =>
    match f x with
    | .error er => .error er
    | .ok l =>
      match mapLinesWith f rest with
      | .error er => .error er
      | .ok ls => .ok (l :: ls)

/-- Locations branch of `humanize_response` (`data_type` starting with
"loc"): one line per location plus a count header. -/
def locationsFormat (data : J) : Except PyErr String :=
  match pyIterate data with
  | .error er => .error er
  | .ok items =>
    match mapLinesWith locLine items with
    | .error er => .error er
    | .ok lines =>
      .ok ("You have " ++ toString items.length ++ " saved locations:\n"
        ++ String.intercalate "\n" lines)

/-- The resolved location name of one event:
`e.get("location", {}).get("name", "Unknown Location")`. -/
def locName (e : J) : Except PyErr J :=
  match pyGet e ("location") (J.jobj []) with
  | .error er => .error er
  | .ok locd => pyGet locd ("name") (J.js ("Unknown Location"))

/-- One line of the events formatter of `humanize_response`:
`f"{title} at {loc} from {start} to {end}"`, the times rendered through
`datetime.fromtimestamp(..).strftime("%Y-%m-%d %H:%M")`. -/
def eventLine (e : J) : Except PyErr String :=
  match pySubscript e ("title") with
  | .error er => .error er
  | .ok title =>
  match pySubscript e ("startDatetime") with
  | .error er => .error er
  | .ok st =>
  match pySubscript e ("endDatetime") with
  | .error er => .error er
  | .ok en =>
  match asNum st with
  | .error er => .error er
  | .ok stn =>
  match asNum en with
  | .error er => .error er
  | .ok enn =>
  match locName e with
  | .error er => .error er
  | .ok loc =>
    .ok (pyStr title ++ " at " ++ pyStr loc ++ " from "
      ++ fmtTimestamp stn.1 stn.2 ++ " to " ++ fmtTimestamp enn.1 enn.2)

/-- Events branch of `humanize_response` (`data_type` starting with "event"
or "meet"): one line per event, a count header, and the (post-loop) empty
check returning "No events found.". -/
def eventsFormat (data : J) : Except PyErr String :=
  match pyIterate data with
  | .error er => .error er
  | .ok items =>
    match mapLinesWith eventLine items with
    | .error er => .error er
    | .ok lines =>
      if lines.isEmpty then .ok ("No events found.")
      else
        .ok ("You have " ++ toString items.length ++ " events:\n"
          ++ String.intercalate "\n" lines)

/-- Post-parse body of `humanize_response`: the falsy check, then the
prefix-dispatched formatter, with `json.dumps(data, indent=2)` as the
generic fallback. -/
def humanizeVal (data : J) (data_type : String) : Except PyErr String :=
  if !truthy data then .ok ("No data found.")
  else if pyStartswith data_type ("loc") then locationsFormat data
  else if pyStartswith data_type ("event") || pyStartswith data_type ("meet") then
    eventsFormat data
  else .ok (dumps data)

/-- Input of `humanize_response`: either a `str` (to be JSON-parsed first)
or an already structured value. -/
inductive HumanizeData where
  | ofStr (s : String) : HumanizeData
  | ofVal (v : J) : HumanizeData

/-- Embedding of the tool `humanize_response(data, data_type)`: a `str`
input is JSON-parsed, falling back to returning the raw text on parse
failure; then the falsy check and the prefix dispatch run. -/
def humanize_response (data : HumanizeData) (data_type : String) :
    Except PyErr String :=
  match data with
  | .ofStr s =>
    match jsonParse s with
    | none => .ok s
    | some v => humanizeVal v data_type
  | .ofVal v => humanizeVal v data_type

/-- Response of one HTTP request: either a status code with a JSON body, or
a transport-level `requests.exceptions.RequestException` carrying its
message. -/
inductive BackendResp where
  | resp (status : Nat) (body : J) : BackendResp
  | raise (msg : String) : BackendResp
deriving Repr

/-- The `CALENDAR_API_BASE` configuration constant. -/
def CALENDAR_API_BASE : String := "http://localhost:3000"

/-- Message of the `requests.HTTPError` raised by
`response.raise_for_status()` on a status of 400 or above (4xx are client
errors, 5xx server errors). -/
def httpErrText (status : Nat) (url : String) : String :=
  if status < 500 then toString status ++ " Client Error for url: " ++ url
  else toString status ++ " Server Error for url: " ++ url

/-- The conflict message returned by `create_event` and `update_event` on a
409 status. -/
def conflictMsg : String :=
  "Error: This time slot is already booked. Please choose a different time."

/-- Request body built by `create_event`. -/
def createPayload (title : String) (startDatetime endDatetime : Int)
    (location_name : String) (latitude longitude : PyFloat) : J :=
  J.jobj [("title", J.js title),
          ("startDatetime", J.ji startDatetime),
          ("endDatetime", J.ji endDatetime),
          ("location", J.jobj [("name", J.js location_name),
                               ("latitude", J.jq latitude),
                               ("longitude", J.jq longitude)])]

/-- Embedding of the tool `create_event`: posts the payload once; a 409
status yields the booked-slot message, any other error (HTTP-level via
`raise_for_status`, or transport) yields "Error creating event: ...";
otherwise the response JSON. The second component lists the request bodies
issued to the backend. -/
def create_event (title : String) (startDatetime endDatetime : Int)
    (location_name : String) (latitude longitude : PyFloat)
    (backend : J → BackendResp) : (J ⊕ String) × List J :=
  let payload := createPayload title startDatetime endDatetime location_name
    latitude longitude
  let url := CALENDAR_API_BASE ++ "/calendar/create"
  match backend payload with
  | .raise m => (.inr ("Error creating event: " ++ m), [payload])
  | .resp st body =>
    if st = 409 then (.inr conflictMsg, [payload])
    else if st ≥ 400 then
      (.inr ("Error creating event: " ++ httpErrText st url), [payload])
    else (.inl body, [payload])

/-- The empty-update message of `update_event`. -/
def emptyUpdateMsg : String :=
  "Error: You must provide at least one field to update (title, startDatetime, or endDatetime)."

/-- Request body built by `update_event`: only the supplied fields, in the
order title, startDatetime, endDatetime. -/
def updatePayloadKvs (title : Option String) (startDatetime endDatetime : Option Int) :
    List (String × J) :=
  (match title with
   | some t => [(("title" : String), J.js t)]
   | none => [])
  ++ (match startDatetime with
   | some s => [(("startDatetime" : String), J.ji s)]
   | none => [])
  ++ (match endDatetime with
   | some e => [(("endDatetime" : String), J.ji e)]
   | none => [])

/-- Embedding of the tool `update_event`: with no supplied field it returns
the empty-update error before any request; otherwise it posts the partial
payload once, mapping 409 to the booked-slot message and other failures to
"Error updating event {id}: ...". -/
def update_event (event_id : String) (title : Option String)
    (startDatetime endDatetime : Option Int)
    (backend : J → BackendResp) : (J ⊕ String) × List J :=
  let kvs := updatePayloadKvs title startDatetime endDatetime
  if kvs.isEmpty then (.inr emptyUpdateMsg, [])
  else
    let payload := J.jobj kvs
    let url := CALENDAR_API_BASE ++ "/calendar/update/" ++ event_id
    match backend payload with
    | .raise m => (.inr ("Error updating event " ++ event_id ++ ": " ++ m), [payload])
    | .resp st body =>
      if st = 409 then (.inr conflictMsg, [payload])
      else if st ≥ 400 then
        (.inr ("Error updating event " ++ event_id ++ ": " ++ httpErrText st url),
          [payload])
      else (.inl body, [payload])

/-- Embedding of the tool `get_event_by_id`: one GET; `raise_for_status`
turns any status of 400 or above into a `RequestException`, and every
caught exception is rendered through the single template
`f"Error fetching event {event_id}: {e}"`. -/
def get_event_by_id (event_id : String) (backend : BackendResp) : J ⊕ String :=
  let url := CALENDAR_API_BASE ++ "/calendar/get/" ++ event_id
  match backend with
  | .raise m => .inr ("Error fetching event " ++ event_id ++ ": " ++ m)
  | .resp st body =>
    if st ≥ 400 then
      .inr ("Error fetching event " ++ event_id ++ ": " ++ httpErrText st url)
    else .inl body

/-- Embedding of the nested `format_location` of `get_eta`: a dict with a
truthy value at key "error" becomes an error shape; otherwise a dict is
read at keys "lat" and "lng" (KeyError when absent) into a latLng shape; a
string becomes an address shape; anything else an invalid-format error
shape. -/
def format_location (loc : J) : Except PyErr J :=
  match loc with
  | .jobj kvs =>
    let errv := (lookupKvs kvs ("error")).getD J.null
    if truthy errv then .ok (J.jobj [(("error" : String), errv)])
    else
      match lookupKvs kvs ("lat") with
      | none => .error (PyErr.keyError ("lat"))
      | some lat =>
        match lookupKvs kvs ("lng") with
        | none => .error (PyErr.keyError ("lng"))
        | some lng =>
          .ok (J.jobj [(("location" : String),
            J.jobj [(("latLng" : String),
              J.jobj [(("latitude" : String), lat),
                      (("longitude" : String), lng)])])])
  | .js a => .ok (J.jobj [(("location" : String),
      J.jobj [(("address" : String), J.js a)])])
  | _ => .ok (J.jobj [(("error" : String), J.js ("Invalid location format"))])

/-- Key lookup on a formatted location value, modelling the membership test
`"error" in origin_loc` together with the subsequent `origin_loc['error']`;
formatted locations are always dicts. -/
def objLookup (x : J) (key : String) : Option J :=
  match x with
  | .jobj kvs => lookupKvs kvs key
  | _ => none

/-- The URL of the routing backend used by `get_eta`. -/
def routesUrl : String := "https://routes.googleapis.com/directions/v2:computeRoutes"

/-- Equality test on JSON values, via their rendering (adequate for the
shapes compared here). -/
def beqJ (a b : J) : Bool := pyRepr a == pyRepr b

instance : BEq J := ⟨beqJ⟩

/-- Substring test on character lists (Python `sub in s` for strings). -/
def listHasSubseg (needle hay : List Char) : Bool :=
  hay.tails.any (fun t => needle.isPrefixOf t)

/-- Python membership `key in data` for the shapes a JSON body can take
(dict keys, list elements, substring of a str); TypeError otherwise. -/
def pyContains (data : J) (key : String) : Except PyErr Bool :=
  match data with
  | .jobj kvs => .ok (kvs.any (fun p => p.fst = key))
  | .jarr vs => .ok (vs.any (fun v => v == J.js key))
  | .js s => .ok (listHasSubseg key.data s.data)
  | _ => .error (PyErr.typeError ("argument is not a container"))

/-- Python subscript `x[0]` on a JSON body: head of a list (IndexError when
empty), first character of a str. -/
def pyFirst (x : J) : Except PyErr J :=
  match x with
  | .jarr [] => .error (PyErr.indexError ("list index out of range"))
  | .jarr (v :: _) => .ok v
  | .js s =>
    match s.data with
    | [] => .error (PyErr.indexError ("string index out of range"))
    | c :: _ => .ok (J.js (String.singleton c))
  | _ => .error (PyErr.typeError ("value is not subscriptable by int"))

/-- The no-route message of `get_eta`:
`f"Google Routes API Error: No routes found. {data}"`. -/
def noRouteMsg (data : J) : String :=
  "Google Routes API Error: No routes found. " ++ pyStr data

/-- Success message of `get_eta`:
`f"The current ETA is {duration} ({distance/1000:.1f} km)."`. -/
def etaMsg (duration : J) (distNum : Int) (distDen : Int) : String :=
  "The current ETA is " ++ pyStr duration ++ " ("
    ++ formatFixed1 distNum distDen ++ " km)."

/-- Embedding of the tool `get_eta(origin, destination)`: both endpoints are
formatted first (a KeyError there escapes), errors are reported before any
request, then one POST to the routing backend; an HTTP or transport failure
yields "Error calling Google Routes API: ...", a missing or empty routes
array yields the no-route message, and otherwise the first route's duration
and distance are rendered. `now` stands for the wall-clock departure time
string. The second component lists the request bodies issued. -/
def get_eta (origin destination : J) (now : String)
    (backend : J → BackendResp) : Except PyErr (String × List J) :=
  match format_location origin with
  | .error er => .error er
  | .ok origin_loc =>
  match format_location destination with
  | .error er => .error er
  | .ok destination_loc =>
  match objLookup origin_loc ("error") with
  | some v => .ok ("Error: " ++ pyStr v, [])
  | none =>
  match objLookup destination_loc ("error") with
  | some v => .ok ("Error: " ++ pyStr v, [])
  | none =>
    let body := J.jobj [(("origin" : String), origin_loc),
      (("destination" : String), destination_loc),
      (("travelMode" : String), J.js ("DRIVE")),
      (("routingPreference" : String), J.js ("TRAFFIC_AWARE_OPTIMAL")),
      (("departureTime" : String), J.js now),
      (("languageCode" : String), J.js ("en-US")),
      (("units" : String), J.js ("METRIC")),
      (("regionCode" : String), J.js ("GB"))]
    match backend body with
    | .raise m => .ok ("Error calling Google Routes API: " ++ m, [body])
    | .resp st data =>
      if st ≥ 400 then
        .ok ("Error calling Google Routes API: " ++ httpErrText st routesUrl, [body])
      else
        match pyContains data ("routes") with
        | .error er => .error er
        | .ok hasRoutes =>
          if !hasRoutes then .ok (noRouteMsg data, [body])
          else
            match pySubscript data ("routes") with
            | .error er => .error er
            | .ok routes =>
              if !truthy routes then .ok (noRouteMsg data, [body])
              else
                match pyFirst routes with
                | .error er => .error er
                | .ok route =>
                match pyGet route ("duration") (J.js ("Unknown duration")) with
                | .error er => .error er
                | .ok duration =>
                match pyGet route ("distanceMeters") (J.ji 0) with
                | .error er => .error er
                | .ok distance =>
                match asNum distance with
                | .error er => .error er
                | .ok dq =>
                  .ok (etaMsg duration dq.1 (1000 * (10 : Int) ^ dq.2), [body])

/-- Behavior of the geocoding backend for one `gmaps.geocode(address)`
call: a result list, an `ApiError`, or some other raised exception. -/
inductive GeocodeBehavior where
  | results (rs : List J) : GeocodeBehavior
  | apiError (msg : String) : GeocodeBehavior
  | otherError (msg : String) : GeocodeBehavior

/-- The failure dict built by `get_lat_long_for_address`. -/
def geocodeFailure (address : String) (msg : String) : J :=
  J.jobj [(("lat" : String), J.null),
          (("lng" : String), J.null),
          (("formatted_address" : String), J.js address),
          (("error" : String), J.js msg)]

/-- Field extraction of the success path of `get_lat_long_for_address`:
`geocode_result[0]['geometry']['location']` then `['lat']`, `['lng']`, and
`geocode_result[0].get('formatted_address', address)`. -/
def geocodeExtract (address : String) (first : J) : Except PyErr J :=
  match pySubscript first ("geometry") with
  | .error er => .error er
  | .ok geometry =>
  match pySubscript geometry ("location") with
  | .error er => .error er
  | .ok location =>
  match pySubscript location ("lat") with
  | .error er => .error er
  | .ok latitude =>
  match pySubscript location ("lng") with
  | .error er => .error er
  | .ok longitude =>
  match pyGet first ("formatted_address") (J.js address) with
  | .error er => .error er
  | .ok fa =>
    .ok (J.jobj [(("lat" : String), latitude),
                 (("lng" : String), longitude),
                 (("formatted_address" : String), fa)])

/-- Embedding of the tool `get_lat_long_for_address`: zero results yield the
structured not-found dict, an `ApiError` or any other exception (including
extraction errors on a malformed entry) yields the structured error dict
carrying `str(e)`; the function itself never raises. -/
def get_lat_long_for_address (address : String) (backend : GeocodeBehavior) : J :=
  match backend with
  | .apiError m => geocodeFailure address m
  | .otherError m => geocodeFailure address m
  | .results [] => geocodeFailure address ("Address not found")
  | .results (first :: _) =>
    match geocodeExtract address first with
    | .ok v => v
    | .error e => geocodeFailure address (pyErrStr e)

/-- Keys of the coordinate fields embedded in an event's location. -/
def isCoordKey (k : String) : Bool := k == "latitude" || k == "longitude"

/-- Erase the coordinate fields of a location dict (other values are left
unchanged). -/
def stripLoc : J → J
  | .jobj kvs => .jobj (kvs.filter (fun p => !isCoordKey p.fst))
  | v => v

/-- Erase the coordinate fields beneath the "location" key of one dict
entry. -/
def stripPair (p : String × J) : String × J :=
  if p.fst = "location" then (p.fst, stripLoc p.snd) else p

/-- Erase the embedded location coordinates of an event dict, leaving
title, timestamps and the location name intact. -/
def stripEvent : J → J
  | .jobj kvs => .jobj (kvs.map stripPair)
  | v => v

theorem lookupKvs_map_stripPair_ne (kvs : List (String × J)) (key : String)
    (h : key ≠ "location") :
    lookupKvs (kvs.map stripPair) key = lookupKvs kvs key := by
  induction kvs with
  | nil => rfl
  | cons p rest ih =>
    obtain ⟨k, v⟩ := p
    simp only [List.map_cons, stripPair]
    by_cases hk : k = "location"
    · rw [if_pos hk]
      have hne : k ≠ key := fun hkk => h (hkk ▸ hk)
      simp only [lookupKvs]
      rw [if_neg hne, if_neg hne, ih]
    · rw [if_neg hk]
      simp only [lookupKvs]
      by_cases hkk : k = key
      · rw [if_pos hkk, if_pos hkk]
      · rw [if_neg hkk, if_neg hkk, ih]

theorem lookupKvs_map_stripPair_loc (kvs : List (String × J)) :
    lookupKvs (kvs.map stripPair) ("location")
      = (lookupKvs kvs ("location")).map stripLoc := by
  induction kvs with
  | nil => rfl
  | cons p rest ih =>
    obtain ⟨k, v⟩ := p
    simp only [List.map_cons, stripPair]
    by_cases hk : k = "location"
    · rw [if_pos hk]
      simp only [lookupKvs]
      rw [if_pos hk, if_pos hk]
      rfl
    · rw [if_neg hk]
      simp only [lookupKvs]
      rw [if_neg hk, if_neg hk, ih]

theorem lookupKvs_filter_coord (kvs : List (String × J)) (key : String)
    (h : isCoordKey key = false) :
    lookupKvs (kvs.filter (fun p => !isCoordKey p.fst)) key
      = lookupKvs kvs key := by
  induction kvs with
  | nil => rfl
  | cons p rest ih =>
    obtain ⟨k, v⟩ := p
    rw [List.filter_cons]
    by_cases hc : isCoordKey k = true
    · have hne : k ≠ key := by
        intro hkk
        rw [hkk, h] at hc
        exact Bool.false_ne_true hc
      have hcond : (!isCoordKey (k, v).fst) = false := by
        simp [hc]
      rw [hcond]
      simp only [Bool.false_eq_true, if_false, lookupKvs]
      rw [if_neg hne, ih]
    · have hcond : (!isCoordKey (k, v).fst) = true := by
        simp [Bool.of_not_eq_true hc]
      rw [hcond]
      simp only [if_true, lookupKvs]
      by_cases hkk : k = key
      · rw [if_pos hkk, if_pos hkk]
      · rw [if_neg hkk, if_neg hkk, ih]

theorem pyGet_stripLoc_name (l d : J) :
    pyGet (stripLoc l) ("name") d = pyGet l ("name") d := by
  cases l with
  | jobj kvs =>
    simp only [stripLoc, pyGet]
    rw [lookupKvs_filter_coord kvs ("name") (by decide)]
  | null => rfl
  | jb v => rfl
  | ji v => rfl
  | jq v => rfl
  | js v => rfl
  | jarr vs => rfl

theorem locName_stripEvent (e : J) : locName (stripEvent e) = locName e := by
  cases e with
  | jobj kvs =>
    simp only [stripEvent, locName, pyGet]
    rw [lookupKvs_map_stripPair_loc kvs]
    cases hl : lookupKvs kvs ("location") with
    | none => rfl
    | some l =>
      simp only [Option.map, Option.getD]
      exact pyGet_stripLoc_name l (J.js ("Unknown Location"))
  | null => rfl
  | jb v => rfl
  | ji v => rfl
  | jq v => rfl
  | js v => rfl
  | jarr vs => rfl

theorem pySubscript_stripEvent_ne (e : J) (key : String) (h : key ≠ "location") :
    pySubscript (stripEvent e) key = pySubscript e key := by
  cases e with
  | jobj kvs =>
    simp only [stripEvent, pySubscript]
    rw [lookupKvs_map_stripPair_ne kvs key h]
  | null => rfl
  | jb v => rfl
  | ji v => rfl
  | jq v => rfl
  | js v => rfl
  | jarr vs => rfl

theorem eventLine_stripEvent (e : J) : eventLine (stripEvent e) = eventLine e := by
  unfold eventLine
  rw [pySubscript_stripEvent_ne e ("title") (by decide),
    pySubscript_stripEvent_ne e ("startDatetime") (by decide),
    pySubscript_stripEvent_ne e ("endDatetime") (by decide),
    locName_stripEvent e]

theorem mapLinesWith_stripEvent (es : List J) :
    mapLinesWith eventLine (es.map stripEvent) = mapLinesWith eventLine es := by
  induction es with
  | nil => rfl
  | cons e rest ih =>
    simp only [List.map, mapLinesWith]
    rw [eventLine_stripEvent e, ih]

theorem startsLoc_false_of_eventsKind (k : String)
    (h : pyStartswith k ("event") = true ∨ pyStartswith k ("meet") = true) :
    pyStartswith k ("loc") = false := by
  unfold pyStartswith at *
  have hev : ("event" : String).data = ['e', 'v', 'e', 'n', 't'] := rfl
  have hme : ("meet" : String).data = ['m', 'e', 'e', 't'] := rfl
  have hlo : ("loc" : String).data = ['l', 'o', 'c'] := rfl
  rw [hlo]
  cases hcs : k.data with
  | nil =>
    rw [hcs, hev, hme] at h
    rcases h with h | h <;> simp [List.isPrefixOf] at h
  | cons c rest =>
    rw [hcs, hev, hme] at h
    have hc : c = 'e' ∨ c = 'm' := by
      rcases h with h | h
      · simp only [List.isPrefixOf, Bool.and_eq_true, beq_iff_eq] at h
        exact Or.inl h.1.symm
      · simp only [List.isPrefixOf, Bool.and_eq_true, beq_iff_eq] at h
        exact Or.inr h.1.symm
    rcases hc with hc | hc <;> rw [hc] <;> rfl

/-- C2 counterexample: `humanize_response` applied to the empty events list
with kind "events" returns "No data found.", not "No events found" — the
falsy check fires before the events branch's empty-sequence special case,
so the claimed "No events found" reply is never produced for an empty
list. -/
theorem humanize_empty_events_cex :
    humanize_response (.ofVal (J.jarr [])) ("events") = Except.ok ("No data found.")
    ∧ humanize_response (.ofVal (J.jarr [])) ("events") ≠ Except.ok ("No events found")
    ∧ humanize_response (.ofVal (J.jarr [])) ("events") ≠ Except.ok ("No events found.") := by
  have h1 : humanize_response (.ofVal (J.jarr [])) ("events")
      = Except.ok ("No data found.") := rfl
  refine ⟨h1, ?_, ?_⟩
  · rw [h1]
    intro h
    injection h with h2
    exact absurd h2 (by decide)
  · rw [h1]
    intro h
    injection h with h2
    exact absurd h2 (by decide)

/-- C2 amended: empty list and empty dict inputs of any kind yield
"No data found.", the falsy check running before kind dispatch (so the
empty events list yields "No data found.", never "No events found."); an
empty string input is returned unchanged (as "") because JSON parsing of it
fails and the raw text is returned. -/
theorem humanize_empty_amended (k : String) :
    humanize_response (.ofVal (J.jarr [])) k = Except.ok ("No data found.")
    ∧ humanize_response (.ofVal (J.jobj [])) k = Except.ok ("No data found.")
    ∧ humanize_response (.ofStr "") k = Except.ok ("") := by
  exact ⟨rfl, rfl, rfl⟩

/-- C3: an `update_event` call in which none of title, startDatetime,
endDatetime is supplied returns the invalid-request error message and
issues no request to the calendar backend, for every backend behavior. -/
theorem update_event_empty_fields (event_id : String) (backend : J → BackendResp) :
    update_event event_id none none none backend = (Sum.inr emptyUpdateMsg, []) := rfl

/-- C4: when the backend answers any `create_event` call, or any
`update_event` call supplying at least one of title, startDatetime,
endDatetime (an all-empty update never reaches the backend), with status
409, the result is the scheduling conflict message and exactly one backend
request is issued — no retry. -/
theorem conflict_status_yields_conflict (t : String) (s e : Int) (ln : String)
    (lat lng : PyFloat) (body : J) (eid : String)
    (ut : Option String) (us ue : Option Int)
    (hsome : ut ≠ none ∨ us ≠ none ∨ ue ≠ none) :
    (create_event t s e ln lat lng (fun _ => BackendResp.resp 409 body)).fst
      = Sum.inr conflictMsg
    ∧ (create_event t s e ln lat lng (fun _ => BackendResp.resp 409 body)).snd.length = 1
    ∧ (update_event eid ut us ue (fun _ => BackendResp.resp 409 body)).fst
      = Sum.inr conflictMsg
    ∧ (update_event eid ut us ue (fun _ => BackendResp.resp 409 body)).snd.length
      = 1 := by
  have hkvs : (updatePayloadKvs ut us ue).isEmpty = false := by
    cases ut with
    | some t2 => rfl
    | none =>
      cases us with
      | some s2 => rfl
      | none =>
        cases ue with
        | some e2 => rfl
        | none => rcases hsome with h | h | h <;> exact absurd rfl h
  have hupd : update_event eid ut us ue (fun _ => BackendResp.resp 409 body)
      = (Sum.inr conflictMsg, [J.jobj (updatePayloadKvs ut us ue)]) := by
    unfold update_event
    dsimp only
    rw [hkvs]
    rfl
  exact ⟨rfl, rfl, by rw [hupd], by rw [hupd]; rfl⟩

/-- C4 witness: an update supplying only startDatetime, answered 409, gives
the conflict message with exactly one request. -/
theorem conflict_status_yields_conflict_witness :
    ((none : Option String) ≠ none ∨ (some (1700000000 : Int)) ≠ none
      ∨ (none : Option Int) ≠ none)
    ∧ (update_event ("u1") none (some 1700000000) none
        (fun _ => BackendResp.resp 409 J.null)).fst = Sum.inr conflictMsg
    ∧ (update_event ("u1") none (some 1700000000) none
        (fun _ => BackendResp.resp 409 J.null)).snd.length = 1 := by
  have h := conflict_status_yields_conflict ("T") 1 2 ("L") ⟨1, 0⟩ ⟨2, 0⟩ J.null
    ("u1") none (some 1700000000) none
    (Or.inr (Or.inl (fun hc => Option.noConfusion hc)))
  exact ⟨Or.inr (Or.inl (fun hc => Option.noConfusion hc)), h.2.2.1, h.2.2.2⟩

/-- C6 counterexample: on a not-found (404) status `get_event_by_id` does
not produce an outcome distinguished from transport failure — it renders
the same generic template "Error fetching event {id}: {e}", and a transport
failure whose message equals the HTTP 404 text produces the byte-identical
result. -/
theorem get_event_by_id_notfound_cex :
    get_event_by_id ("1") (BackendResp.resp 404 J.null)
      = get_event_by_id ("1")
          (BackendResp.raise (httpErrText 404 (CALENDAR_API_BASE ++ "/calendar/get/1")))
    ∧ get_event_by_id ("1") (BackendResp.resp 404 J.null)
      = Sum.inr ("Error fetching event 1: 404 Client Error for url: http://localhost:3000/calendar/get/1") := by
  exact ⟨rfl, rfl⟩

/-- C6 amended: when the backend returns a not-found (404) status,
`get_event_by_id` fails, returning the generic error string
"Error fetching event {id}: ..." that embeds the HTTP 404 text — the same
template used for transport failures, so the not-found outcome is a
failure but not a structurally distinct NotFound outcome. -/
theorem get_event_by_id_notfound_generic (event_id : String) (body : J) :
    get_event_by_id event_id (BackendResp.resp 404 body)
      = Sum.inr ("Error fetching event " ++ event_id ++ ": "
          ++ httpErrText 404 (CALENDAR_API_BASE ++ "/calendar/get/" ++ event_id)) := rfl

/-- C8 counterexample: `create_event` applies no local structural
validation — with endDatetime (50) before startDatetime (100), latitude 500
outside the ±90 range and longitude 999 outside the ±180 range, the request
is still issued to the backend (exactly one request, carrying those very
values) and the backend's response is returned rather than a local
rejection. -/
theorem create_event_no_validation_cex :
    (create_event ("T") 100 50 ("L") ⟨500, 0⟩ ⟨999, 0⟩
        (fun _ => BackendResp.resp 200 (J.js ("created")))).fst
      = Sum.inl (J.js ("created"))
    ∧ (create_event ("T") 100 50 ("L") ⟨500, 0⟩ ⟨999, 0⟩
        (fun _ => BackendResp.resp 200 (J.js ("created")))).snd
      = [createPayload ("T") 100 50 ("L") ⟨500, 0⟩ ⟨999, 0⟩] := by
  exact ⟨rfl, rfl⟩

/-- C8 amended: this layer performs no structural validation of Event times
or Location coordinates — for every argument combination (including
end_time <= start_time and out-of-range coordinates) `create_event` issues
exactly one backend request carrying the arguments verbatim; any such
validation is left to the backend. -/
theorem create_event_forwards_unvalidated (t : String) (s e : Int) (ln : String)
    (lat lng : PyFloat) (backend : J → BackendResp) :
    (create_event t s e ln lat lng backend).snd
      = [createPayload t s e ln lat lng] := by
  unfold create_event
  dsimp only
  cases hb : backend (createPayload t s e ln lat lng) with
  | raise m => rfl
  | resp st body =>
    dsimp only
    by_cases h4 : st = 409
    · rw [if_pos h4]
    · rw [if_neg h4]
      by_cases h5 : st ≥ 400
      · rw [if_pos h5]
      · rw [if_neg h5]

theorem geocodeExtract_obj (address : String) (first v : J)
    (h : geocodeExtract address first = Except.ok v) :
    ∃ kvs, v = J.jobj kvs := by
  unfold geocodeExtract at h
  repeat' split at h
  all_goals first
    | exact Except.noConfusion h
    | exact ⟨_, (Except.ok.inj h).symm⟩

/-- C7: `get_lat_long_for_address` never lets a fault escape — its result is
always a structured dict; with zero geocoding results it is the structured
not-found dict (error "Address not found"), and on an upstream `ApiError`
it is the structured service-error dict carrying the upstream message. -/
theorem geocode_always_structured (address : String) (b : GeocodeBehavior) :
    (∃ kvs, get_lat_long_for_address address b = J.jobj kvs)
    ∧ get_lat_long_for_address address (GeocodeBehavior.results [])
        = geocodeFailure address ("Address not found")
    ∧ (∀ m, get_lat_long_for_address address (GeocodeBehavior.apiError m)
        = geocodeFailure address m) := by
  refine ⟨?_, rfl, fun m => rfl⟩
  cases b with
  | apiError m => exact ⟨_, rfl⟩
  | otherError m => exact ⟨_, rfl⟩
  | results rs =>
    cases rs with
    | nil => exact ⟨_, rfl⟩
    | cons first rest =>
      unfold get_lat_long_for_address
      dsimp only
      cases hge : geocodeExtract address first with
      | ok v =>
        dsimp only
        exact geocodeExtract_obj address first v hge
      | error e =>
        dsimp only
        exact ⟨_, rfl⟩

/-- C5 counterexample: a coordinate dict written with keys "latitude" and
"longitude" is not accepted by `get_eta` — the call raises KeyError("lat")
(an uncaught fault), not a successful duration/distance result, even with a
backend that would return a valid route. -/
theorem get_eta_latitude_key_cex :
    get_eta (J.js ("Office"))
      (J.jobj [(("latitude" : String), J.jq ⟨515, 1⟩),
               (("longitude" : String), J.jq ⟨-1, 1⟩)])
      ("2025-01-01T00:00:00Z")
      (fun _ => BackendResp.resp 200 (J.jobj [(("routes" : String),
        J.jarr [J.jobj [(("duration" : String), J.js ("15 mins")),
                        (("distanceMeters" : String), J.ji 12000)]])]))
    = Except.error (PyErr.keyError ("lat")) := rfl

/-- C5 amended: coordinate dicts use the keys "lat" and "lng" (the shape
produced by `get_lat_long_for_address`); with an address origin "Office"
and the coordinate destination using lat 51.5 / lng -0.1 the mixed call
succeeds and returns the duration/distance message; an empty routes array
yields the distinct no-route message, which differs from every
transport-failure message of `get_eta`. -/
theorem get_eta_mixed_and_noroute :
    (∀ (now : String),
      (get_eta (J.js ("Office"))
        (J.jobj [(("lat" : String), J.jq ⟨515, 1⟩),
                 (("lng" : String), J.jq ⟨-1, 1⟩)])
        now
        (fun _ => BackendResp.resp 200 (J.jobj [(("routes" : String),
          J.jarr [J.jobj [(("duration" : String), J.js ("15 mins")),
                          (("distanceMeters" : String), J.ji 12000)]])]))).map Prod.fst
      = Except.ok ("The current ETA is 15 mins (12.0 km)."))
    ∧ (∀ (now : String),
      (get_eta (J.js ("Office"))
        (J.jobj [(("lat" : String), J.jq ⟨515, 1⟩),
                 (("lng" : String), J.jq ⟨-1, 1⟩)])
        now
        (fun _ => BackendResp.resp 200 (J.jobj [(("routes" : String),
          J.jarr [])]))).map Prod.fst
      = Except.ok (noRouteMsg (J.jobj [(("routes" : String), J.jarr [])])))
    ∧ (∀ (m : String),
      noRouteMsg (J.jobj [(("routes" : String), J.jarr [])])
        ≠ "Error calling Google Routes API: " ++ m) := by
  refine ⟨fun now => rfl, fun now => rfl, fun m h => ?_⟩
  have hd := congrArg String.data h
  rw [String.data_append] at hd
  have h2 := congrArg List.head? hd
  exact absurd (show (some ('G') : Option Char) = some ('E') from h2) (by decide)

/-- C9: `humanize_response` selects its formatter by prefix of the kind
argument — on truthy data, every kind starting with "loc" selects the
locations formatter, every kind starting with "event" or "meet" (such as
"meeting" and "events") selects the events formatter, and any other kind
falls through to the pretty-printed `json.dumps` fallback. -/
theorem humanize_prefix_dispatch (v : J) (k : String) (ht : truthy v = true) :
    (pyStartswith k ("loc") = true →
      humanize_response (.ofVal v) k = locationsFormat v)
    ∧ ((pyStartswith k ("event") = true ∨ pyStartswith k ("meet") = true) →
      humanize_response (.ofVal v) k = eventsFormat v)
    ∧ (pyStartswith k ("loc") = false → pyStartswith k ("event") = false →
      pyStartswith k ("meet") = false →
      humanize_response (.ofVal v) k = Except.ok (dumps v)) := by
  refine ⟨?_, ?_, ?_⟩
  · intro hloc
    simp [humanize_response, humanizeVal, ht, hloc]
  · intro hkind
    have hloc := startsLoc_false_of_eventsKind k hkind
    have hev : (pyStartswith k ("event") || pyStartswith k ("meet")) = true := by
      rcases hkind with h | h <;> simp [h]
    simp [humanize_response, humanizeVal, ht, hloc, hev]
  · intro h1 h2 h3
    simp [humanize_response, humanizeVal, ht, h1, h2, h3]

/-- C9 witness: the kind "meeting" (prefix "meet") selects the events
formatter on a concrete truthy value. -/
theorem humanize_prefix_dispatch_witness :
    truthy (J.jarr [J.ji 1]) = true
    ∧ humanize_response (.ofVal (J.jarr [J.ji 1])) ("meeting")
        = eventsFormat (J.jarr [J.ji 1]) := by
  refine ⟨rfl, ?_⟩
  exact (humanize_prefix_dispatch (J.jarr [J.ji 1]) ("meeting") rfl).2.1
    (Or.inr (by decide))

/-- C1: the events formatter of `humanize_response` renders only title,
location name and start/end times — for every non-empty events list and
every events-selecting kind, the output is unchanged when the latitude and
longitude entries inside each event's embedded location are erased, so the
coordinate values carried by the events never reach the returned text. -/
theorem humanize_events_ignores_coordinates (es : List J) (k : String)
    (hne : es ≠ [])
    (hkind : pyStartswith k ("event") = true ∨ pyStartswith k ("meet") = true) :
    humanize_response (.ofVal (J.jarr (es.map stripEvent))) k
      = humanize_response (.ofVal (J.jarr es)) k := by
  have hloc := startsLoc_false_of_eventsKind k hkind
  have hev : (pyStartswith k ("event") || pyStartswith k ("meet")) = true := by
    rcases hkind with h | h <;> simp [h]
  have hne2 : es.isEmpty = false := by
    cases es with
    | nil => exact absurd rfl hne
    | cons a t => rfl
  have hne3 : (es.map stripEvent).isEmpty = false := by
    cases es with
    | nil => exact absurd rfl hne
    | cons a t => rfl
  have ht2 : truthy (J.jarr (es.map stripEvent)) = true := by
    simp [truthy, hne3]
  have ht : truthy (J.jarr es) = true := by
    simp [truthy, hne2]
  unfold humanize_response humanizeVal
  dsimp only
  rw [ht, ht2, hloc, hev]
  simp only [Bool.not_true, Bool.false_eq_true, if_false, if_true]
  unfold eventsFormat
  dsimp only [pyIterate]
  rw [mapLinesWith_stripEvent es, List.length_map]

/-- C1 witness: a concrete event carrying coordinates 51.5 / -0.1 renders
identically with and without the coordinates. -/
theorem humanize_events_ignores_coordinates_witness :
    ([J.jobj [(("title" : String), J.js ("Standup")),
              (("startDatetime" : String), J.ji 1700000000),
              (("endDatetime" : String), J.ji 1700003600),
              (("location" : String), J.jobj [(("name" : String), J.js ("Office")),
                (("latitude" : String), J.jq ⟨515, 1⟩),
                (("longitude" : String), J.jq ⟨-1, 1⟩)])]] ≠ ([] : List J))
    ∧ (pyStartswith ("events") ("event") = true
        ∨ pyStartswith ("events") ("meet") = true)
    ∧ humanize_response (.ofVal (J.jarr
        ([J.jobj [(("title" : String), J.js ("Standup")),
              (("startDatetime" : String), J.ji 1700000000),
              (("endDatetime" : String), J.ji 1700003600),
              (("location" : String), J.jobj [(("name" : String), J.js ("Office")),
                (("latitude" : String), J.jq ⟨515, 1⟩),
                (("longitude" : String), J.jq ⟨-1, 1⟩)])]].map stripEvent))) ("events")
      = humanize_response (.ofVal (J.jarr
        [J.jobj [(("title" : String), J.js ("Standup")),
              (("startDatetime" : String), J.ji 1700000000),
              (("endDatetime" : String), J.ji 1700003600),
              (("location" : String), J.jobj [(("name" : String), J.js ("Office")),
                (("latitude" : String), J.jq ⟨515, 1⟩),
                (("longitude" : String), J.jq ⟨-1, 1⟩)])]])) ("events") := by
  refine ⟨List.cons_ne_nil _ _, Or.inl (by decide), ?_⟩
  exact humanize_events_ignores_coordinates _ ("events")
    (List.cons_ne_nil _ _) (Or.inl (by decide))

/-- C10 counterexample: a dict containing the key "error" mapped to a falsy
value (None) — a dict that does contain an "error" key — is not treated as
a failure by `get_eta`: the call proceeds, issues one request to the
routing backend, and returns the ETA success message instead of an error
message naming the error. -/
theorem get_eta_falsy_error_cex :
    (get_eta (J.jobj [(("error" : String), J.null),
        (("lat" : String), J.jq ⟨1, 0⟩), (("lng" : String), J.jq ⟨2, 0⟩)])
      (J.js ("X")) ("2025-01-01T00:00:00Z")
      (fun _ => BackendResp.resp 200 (J.jobj [(("routes" : String),
        J.jarr [J.jobj [(("duration" : String), J.js ("15 mins")),
                        (("distanceMeters" : String), J.ji 12000)]])]))).map
      (fun r => (r.fst, r.snd.length))
    = Except.ok (("The current ETA is 15 mins (12.0 km)."), 1) := rfl

/-- C10 amended: when origin or destination is a dict whose "error" value
is truthy (the shape `get_lat_long_for_address` produces on failure, whose
messages are non-empty), `get_eta` returns "Error: <that error>" and issues
no request to the routing backend — for the origin case, provided the
destination itself formats without a fault. -/
theorem get_eta_truthy_error_short_circuits
    (kvs : List (String × J)) (v : J) (dest : J) (now : String)
    (backend : J → BackendResp)
    (hv : lookupKvs kvs ("error") = some v) (ht : truthy v = true) :
    (∀ r, format_location dest = Except.ok r →
      get_eta (J.jobj kvs) dest now backend
        = Except.ok ("Error: " ++ pyStr v, []))
    ∧ (∀ a : String,
      get_eta (J.js a) (J.jobj kvs) now backend
        = Except.ok ("Error: " ++ pyStr v, [])) := by
  have hfo : format_location (J.jobj kvs)
      = Except.ok (J.jobj [(("error" : String), v)]) := by
    unfold format_location
    dsimp only
    rw [hv]
    simp [ht]
  constructor
  · intro r hr
    unfold get_eta
    dsimp only
    rw [hfo, hr]
    simp [objLookup, lookupKvs]
  · intro a
    unfold get_eta
    dsimp only
    rw [hfo]
    simp [format_location, objLookup, lookupKvs]

/-- C10 witness: the concrete geocoding failure dict (error
"Address not found") short-circuits `get_eta` with no backend request. -/
theorem get_eta_truthy_error_witness :
    lookupKvs [(("error" : String), J.js ("Address not found")),
               (("lat" : String), J.null), (("lng" : String), J.null)] ("error")
      = some (J.js ("Address not found"))
    ∧ truthy (J.js ("Address not found")) = true
    ∧ get_eta (J.jobj [(("error" : String), J.js ("Address not found")),
               (("lat" : String), J.null), (("lng" : String), J.null)])
        (J.js ("X")) ("T") (fun _ => BackendResp.raise (""))
      = Except.ok ("Error: Address not found", []) := by
  refine ⟨rfl, rfl, ?_⟩
  exact (get_eta_truthy_error_short_circuits
    [(("error" : String), J.js ("Address not found")),
     (("lat" : String), J.null), (("lng" : String), J.null)]
    (J.js ("Address not found")) (J.js ("X")) ("T")
    (fun _ => BackendResp.raise ("")) rfl rfl).1 _ rfl

end CalendarBuddy
